import Mathlib

/-!
Verification of the homelab infrastructure scripts:
`generate_checksums.py`, `validate_infrastructure.py`, `generate_tfvars.py`.

Python strings are modelled as Lean `String` values, manipulated through
their underlying character lists.  Python dictionaries appearing in the
scripts are modelled as association lists `List (String × β)` looked up by
`alookup` (first match wins, mirroring the uniqueness of dict keys).
Network effects (`urllib.request.urlopen`, streamed downloads) are modelled
as oracle functions `String → Option String` mapping a URL to the fetched
text (`none` = any `URLError`/`HTTPError`).  Timestamps are modelled as
seconds counted from a fixed epoch over the proleptic Gregorian calendar,
exactly the quantity whose differences `datetime` subtraction measures.
-/

namespace Homelab

/-! ### String primitives (character-list based models of the Python operations) -/

/-- Model of Python substring containment `pat in l` on character lists. -/
def containsSub (l pat : List Char) : Bool :=
  if pat.isPrefixOf l then true
  else
    match l with
    | [] => false
    | _ :: t => containsSub t pat

/-- Model of Python `pat in s` for strings. -/
def strContains (s pat : String) : Bool := containsSub s.data pat.data

/-- Split a character list at every character satisfying `p`
(the separators are dropped; empty segments are kept). -/
def splitOnPred (p : Char → Bool) : List Char → List (List Char)
  | [] => [[]]
  | c :: t =>
    let r := splitOnPred p t
    if p c then [] :: r
    else
      match r with
      | [] => [[c]]
      | h :: t' => (c :: h) :: t'

/-- ASCII whitespace class used by `str.split()` (the manifest lines contain
only these whitespace characters). -/
def isWsChar (c : Char) : Bool :=
  c = ' ' || c = '\t' || c = '\n' || c = '\r' || c = '\x0b' || c = '\x0c'

/-- Model of Python `line.split()`: split on whitespace runs, dropping
empty segments. -/
def splitWsStr (s : String) : List String :=
  ((splitOnPred isWsChar s.data).filter (· ≠ [])).map (fun l => ⟨l⟩)

/-- Model of Python `content.splitlines()` for newline-separated text:
split at each newline without producing a trailing empty line.
(`splitlines` also recognises other line terminators such as a carriage
return; remote checksum lists are newline separated, so only the newline
is modelled.) -/
def splitLines (s : String) : List String :=
  if s.data = [] then []
  else
    let parts := splitOnPred (· = '\n') s.data
    let parts := if s.data.getLast? = some '\n' then parts.dropLast else parts
    parts.map (fun l => ⟨l⟩)

/-- ASCII lower-casing of one character (the inputs lower-cased by the
scripts - hex digests and file extensions - are ASCII). -/
def lowerChar (c : Char) : Char :=
  if 'A' ≤ c ∧ c ≤ 'Z' then Char.ofNat (c.toNat + 32) else c

/-- Model of Python `s.lower()` for ASCII content. -/
def lowerStr (s : String) : String := ⟨s.data.map lowerChar⟩

/-- A hexadecimal digit, as in the character class `[0-9a-fA-F]`. -/
def isHexChar (c : Char) : Bool :=
  ('0' ≤ c && c ≤ '9') || ('a' ≤ c && c ≤ 'f') || ('A' ≤ c && c ≤ 'F')

/-- Model of `re.fullmatch` against `[0-9a-fA-F]{n}`: exactly `n`
hexadecimal digits. -/
def isHexTok (n : Nat) (s : String) : Bool :=
  s.data.length = n && s.data.all isHexChar

/-- Association-list lookup, first match wins: the model of reading a
Python dict entry (`d.get(k)` / `k in d`). -/
def alookup {β : Type} (k : String) : List (String × β) → Option β
  | [] => none
  | (k', v) :: t => if k = k' then some v else alookup k t

/-- Model of `d.get(k, default)`. -/
def fieldD (item : List (String × String)) (k d : String) : String :=
  (alookup k item).getD d

/-- The part of a URL after the last slash: `url.rsplit('/', 1)[1]`.
(Python raises `IndexError` when the URL has no slash; every artifact URL
contains one, and the relevant theorems carry that hypothesis.) -/
def fileNameOf (url : String) : String :=
  ⟨(url.data.reverse.takeWhile (· ≠ '/')).reverse⟩

/-- The part of a URL before the last slash: `url.rsplit('/', 1)[0]`. -/
def baseUrlOf (url : String) : String :=
  ⟨((url.data.reverse.dropWhile (· ≠ '/')).drop 1).reverse⟩

/-- Remove every occurrence of the (nonempty) pattern, left to right:
model of Python `s.replace(pat, '')`. -/
def removeAll (pat : List Char) : List Char → List Char
  | [] => []
  | c :: t =>
    if pat ≠ [] ∧ pat.isPrefixOf (c :: t) then
      removeAll pat ((c :: t).drop pat.length)
    else
      c :: removeAll pat t
termination_by l => l.length
decreasing_by
  · rename_i h
    simp only [List.length_drop]
    have hp : 0 < pat.length := List.length_pos.mpr h.1
    exact Nat.sub_lt (Nat.succ_pos _) hp
  · simp

/-- Model of Python `s.replace(pat, '')` for strings. -/
def removeAllStr (s pat : String) : String := ⟨removeAll pat.data s.data⟩

/-- Model of Python `s.startswith(pat)`. -/
def strStarts (s pat : String) : Bool := pat.data.isPrefixOf s.data

/-! ### Timestamps

`_should_skip_update` parses `last_updated` with
`datetime.strptime(s, '%Y-%m-%d %H:%M:%S')` and compares with
`datetime.now()`.  We model a `datetime` as the number of seconds from the
start of year 1 of the proleptic Gregorian calendar; `strptimeTs` performs
the same matching (exactly 4 digits for the year, 1-2 digits for the other
fields, one-or-more whitespace for the literal space, full-string match)
and the same range validation that `strptime` plus the `datetime`
constructor perform, and converts to seconds. -/

/-- Greedily take up to `maxN` leading decimal digits. -/
def takeDigitsGreedy : Nat → List Char → (List Char × List Char)
  | 0, l => ([], l)
  | _ + 1, [] => ([], [])
  | m + 1, c :: t =>
    if c.isDigit then
      let (ds, r) := takeDigitsGreedy m t
      (c :: ds, r)
    else ([], c :: t)

/-- Parse a decimal field of at most `maxN` digits (at least one). -/
def parseNum (maxN : Nat) (l : List Char) : Option (Nat × List Char) :=
  let (ds, r) := takeDigitsGreedy maxN l
  if ds = [] then none
  else some (ds.foldl (fun a c => 10 * a + (c.toNat - '0'.toNat)) 0, r)

/-- Consume one expected literal character. -/
def expectChar (c : Char) : List Char → Option (List Char)
  | [] => none
  | x :: t => if x = c then some t else none

/-- Consume one-or-more whitespace characters (a literal space in a
`strptime` format matches a whitespace run). -/
def expectSpaces : List Char → Option (List Char)
  | [] => none
  | c :: t => if isWsChar c then some (t.dropWhile isWsChar) else none

/-- Gregorian leap year. -/
def isLeapYear (y : Nat) : Bool :=
  (y % 4 = 0 && y % 100 ≠ 0) || y % 400 = 0

/-- Days in a month (Gregorian), as validated by the `datetime` constructor. -/
def daysInMonth (y m : Nat) : Nat :=
  if m = 2 then (if isLeapYear y then 29 else 28)
  else if m = 4 ∨ m = 6 ∨ m = 9 ∨ m = 11 then 30
  else 31

/-- Cumulative day count before month `m` in a non-leap year. -/
def daysBeforeMonth (m : Nat) : Nat :=
  match m with
  | 1 => 0 | 2 => 31 | 3 => 59 | 4 => 90 | 5 => 120 | 6 => 151
  | 7 => 181 | 8 => 212 | 9 => 243 | 10 => 273 | 11 => 304 | _ => 334

/-- Seconds from the start of year 1 (proleptic Gregorian) to the given
civil datetime. -/
def toEpochSeconds (y mo d h mi s : Nat) : Nat :=
  let py := y - 1
  let days := 365 * py + py / 4 + py / 400 - py / 100
    + daysBeforeMonth mo
    + (if 2 < mo ∧ isLeapYear y then 1 else 0)
    + (d - 1)
  days * 86400 + h * 3600 + mi * 60 + s

/-- Model of `datetime.strptime(s, '%Y-%m-%d %H:%M:%S')`, returning the
instant in epoch seconds, or `none` on any `ValueError` (the `%Y`
directive matches exactly four digits). -/
def strptimeTs (s : String) : Option Nat := do
  let (yds, r1) := takeDigitsGreedy 4 s.data
  if yds.length ≠ 4 then none else
  let y := yds.foldl (fun a c => 10 * a + (c.toNat - '0'.toNat)) 0
  let r2 ← expectChar '-' r1
  let (mo, r3) ← parseNum 2 r2
  let r4 ← expectChar '-' r3
  let (d, r5) ← parseNum 2 r4
  let r6 ← expectSpaces r5
  let (h, r7) ← parseNum 2 r6
  let r8 ← expectChar ':' r7
  let (mi, r9) ← parseNum 2 r8
  let r10 ← expectChar ':' r9
  let (sec, r11) ← parseNum 2 r10
  if r11 = [] ∧ 1 ≤ y ∧ y ≤ 9999 ∧ 1 ≤ mo ∧ mo ≤ 12 ∧
      1 ≤ d ∧ d ≤ daysInMonth y mo ∧ h ≤ 23 ∧ mi ≤ 59 ∧ sec ≤ 59 then
    some (toEpochSeconds y mo d h mi sec)
  else none

/-- `(now - last).days` for two instants in epoch seconds: `timedelta`
normalises with floor semantics, hence `Int.fdiv`. -/
def ageDays (nowT lastT : Nat) : Int :=
  Int.fdiv ((nowT : Int) - (lastT : Int)) 86400

/-! ### Data model of `generate_checksums.py` -/

/-- `ImageInfo` (generate_checksums.py): image data extracted from the
Terraform file. -/
structure ImageInfo where
  key : String
  url : String
  image_type : String
  filename : String := ""
deriving DecidableEq, Repr

/-- `ChecksumInfo` (generate_checksums.py): checksum metadata. -/
structure ChecksumInfo where
  checksum : String
  algorithm : String := "sha256"
  source_url : String := ""
  last_updated : String := ""
deriving DecidableEq, Repr

/-! ### `ChecksumGenerator._get_remote_checksum` -/

/-- The `checksum_patterns` table: sums-file name, algorithm, and the exact
hex-digest length demanded by the `re.fullmatch` pattern. -/
def checksumPatterns : List (String × String × Nat) :=
  [("SHA512SUMS", "sha512", 128), ("SHA256SUMS", "sha256", 64), ("CHECKSUMS", "sha256", 64)]

/-- The line scan of `_get_remote_checksum`: for each line containing the
filename, return the first whitespace-separated token that is exactly
`hexLen` hex digits; otherwise keep scanning the remaining lines. -/
def scanLines (filename : String) (hexLen : Nat) : List String → Option String
  | [] => none
  | line :: rest =>
    if strContains line filename then
      match (splitWsStr line).find? (fun p => isHexTok hexLen p) with
      | some p => some p
      | none => scanLines filename hexLen rest
    else scanLines filename hexLen rest

/-- The probe loop of `_get_remote_checksum`, iterating over
`checksum_patterns`.  `net` maps a URL to the fetched body (`none` models
`URLError`/`HTTPError`, after which the loop continues). -/
def probeLoop (net : String → Option String) (base filename : String) :
    List (String × String × Nat) → Option ChecksumInfo
  | [] => none
  | (sumsFile, algorithm, hexLen) :: rest =>
    match net (base ++ "/" ++ sumsFile) with
    | some content =>
      match scanLines filename hexLen (splitLines content) with
      | some part => some ⟨lowerStr part, algorithm, "", ""⟩
      | none => probeLoop net base filename rest
    | none => probeLoop net base filename rest

/-- `ChecksumGenerator._get_remote_checksum(url)`. -/
def getRemoteChecksum (net : String → Option String) (url : String) : Option ChecksumInfo :=
  probeLoop net (baseUrlOf url) (fileNameOf url) checksumPatterns

/-- Spec-side description of one probe (from the claim's words): fetch the
sums file at the base directory and return the first token of the expected
hex length found on a line that also contains the artifact's filename. -/
def probeOne (net : String → Option String) (url sumsFile algorithm : String)
    (hexLen : Nat) : Option ChecksumInfo :=
  match net (baseUrlOf url ++ "/" ++ sumsFile) with
  | none => none
  | some content =>
    match (splitLines content).findSome? (fun line =>
        if strContains line (fileNameOf url) then
          (splitWsStr line).find? (fun p => isHexTok hexLen p)
        else none) with
    | none => none
    | some tok => some ⟨lowerStr tok, algorithm, "", ""⟩

/-- Spec-side description of the whole remote acquisition (from the claim's
words): probe SHA512SUMS (128 hex digits), then SHA256SUMS (64), then
CHECKSUMS (64), first success winning. -/
def remoteChecksumSpec (net : String → Option String) (url : String) : Option ChecksumInfo :=
  match probeOne net url "SHA512SUMS" "sha512" 128 with
  | some r => some r
  | none =>
    match probeOne net url "SHA256SUMS" "sha256" 64 with
    | some r => some r
    | none => probeOne net url "CHECKSUMS" "sha256" 64

/-! ### `ChecksumGenerator._should_skip_update` -/

/-- The `dynamic_patterns` test: the URL contains one of the substrings
`current/`, `latest/`, `daily/`. -/
def isVolatileUrl (url : String) : Bool :=
  strContains url "current/" || strContains url "latest/" || strContains url "daily/"

/-- `ChecksumGenerator._should_skip_update(image, existing)`.  `nowT` is
`datetime.now()` in epoch seconds. -/
def shouldSkipUpdate (nowT : Nat) (image : ImageInfo) (existing : ChecksumInfo) : Bool :=
  if existing.source_url ≠ image.url then false
  else if existing.last_updated = "" then false
  else
    match strptimeTs existing.last_updated with
    | none => false
    | some lastT =>
      decide (ageDays nowT lastT < (if isVolatileUrl image.url then (1 : Int) else 7))

/-- The guard `existing_checksum and self._should_skip_update(...)` of
`get_checksum`: no existing record → never skip. -/
def skipDecision (nowT : Nat) (image : ImageInfo) : Option ChecksumInfo → Bool
  | none => false
  | some e => shouldSkipUpdate nowT image e

/-! ### `ChecksumGenerator.get_checksum` -/

/-- `ChecksumGenerator.get_checksum(image, existing_checksum)`.
`net` models the sums-file fetches; `dl` models
`_compute_local_checksum` (the streamed download-and-hash fallback with
its internal retry loop), mapping the artifact URL to the computed sha256
hex digest, `none` when every attempt fails; `nowStr` is
`time.strftime('%Y-%m-%d %H:%M:%S')` at stamping time. -/
def getChecksum (net dl : String → Option String) (nowStr : String) (nowT : Nat)
    (image : ImageInfo) (existing : Option ChecksumInfo) : Option ChecksumInfo :=
  if skipDecision nowT image existing then existing
  else
    match getRemoteChecksum net image.url with
    | some rc => some { rc with source_url := image.url, last_updated := nowStr }
    | none =>
      match dl image.url with
      | some hex => some ⟨hex, "sha256", image.url, nowStr⟩
      | none => none

/-! ### `ChecksumManager.update_checksums` -/

/-- The per-image `changed` test of `update_checksums`:
`not existing or existing.checksum != checksum_info.checksum or
existing.source_url != checksum_info.source_url`. -/
def checksumChanged (ex : Option ChecksumInfo) (c : ChecksumInfo) : Bool :=
  match ex with
  | none => true
  | some e => e.checksum ≠ c.checksum || e.source_url ≠ c.source_url

/-- The loop body of `ChecksumManager.update_checksums`, iterating over the
parsed images (`images.items()` in dict order) with the loaded
`existing_checksums`; returns the `new_checksums` mapping and the `changed`
flag.  On acquisition failure the *unforced* existing record is retained
(`image_key in existing_checksums`). -/
def update_checksums (net dl : String → Option String) (nowStr : String) (nowT : Nat)
    (force : Bool) (existing : List (String × ChecksumInfo)) :
    List (String × ImageInfo) → List (String × ChecksumInfo) × Bool
  | [] => ([], false)
  | (key, info) :: rest =>
    let ex0 := alookup key existing
    let ex := if force then none else ex0
    let ci := getChecksum net dl nowStr nowT info ex
    let r := update_checksums net dl nowStr nowT force existing rest
    match ci with
    | some c => ((key, c) :: r.1, checksumChanged ex c || r.2)
    | none =>
      match ex0 with
      | some e => ((key, e) :: r.1, r.2)
      | none => r

/-- Spec-side resolution of one manifest key (from the claim's words): the
newly acquired record when acquisition succeeds, otherwise the pre-existing
record carried forward, otherwise absent. -/
def resolveEntry (acquired old : Option ChecksumInfo) : Option ChecksumInfo :=
  match acquired with
  | some c => some c
  | none => old

/-! ### `ChecksumRepository` save / load -/

/-- One record as serialised by `save_checksums` (the YAML mapping built
for each key). -/
def saveRecord (info : ChecksumInfo) : List (String × String) :=
  [("checksum", info.checksum), ("algorithm", info.algorithm),
   ("source_url", info.source_url), ("last_updated", info.last_updated)]

/-- One record as reconstructed by `load_existing_checksums`
(`info.get(field, default)`). -/
def loadRecord (fields : List (String × String)) : ChecksumInfo :=
  ⟨(alookup "checksum" fields).getD "",
   (alookup "algorithm" fields).getD "sha256",
   (alookup "source_url" fields).getD "",
   (alookup "last_updated" fields).getD ""⟩

/-- Insertion step of the key sort performed by
`yaml.safe_dump(..., sort_keys=True)`. -/
def insertByKey {β : Type} (p : String × β) : List (String × β) → List (String × β)
  | [] => [p]
  | q :: t => if p.1 ≤ q.1 then p :: q :: t else q :: insertByKey p t

/-- Sort an association list by key. -/
def sortByKey {β : Type} (l : List (String × β)) : List (String × β) :=
  l.foldr insertByKey []

/-- `ChecksumRepository.save_checksums`: the document content under the
`checksums` root key, with keys sorted as `sort_keys=True` emits them. -/
def saveChecksums (checksums : List (String × ChecksumInfo)) :
    List (String × List (String × String)) :=
  sortByKey (checksums.map (fun p => (p.1, saveRecord p.2)))

/-- `ChecksumRepository.load_existing_checksums`: rebuild the mapping from
the document content. -/
def loadChecksums (doc : List (String × List (String × String))) :
    List (String × ChecksumInfo) :=
  doc.map (fun p => (p.1, loadRecord p.2))

/-! ### `generate_tfvars.py` — `ImageGenerator` -/

/-- A manifest entity: a Python dict of string-valued fields. -/
abbrev Item := List (String × String)

/-- `EXT_TO_TYPE`: extension to Proxmox image type. -/
def extToType : List (String × String) :=
  [("iso", "iso"), ("img", "import"), ("qcow2", "import"), ("raw", "import"),
   ("raw.xz", "import"), ("vmdk", "import"), ("tar.xz", "vztmpl"),
   ("tar.gz", "vztmpl"), ("tar.zst", "vztmpl")]

/-- `DEBIAN_VERSIONS`: codename to version number. -/
def debianVersions : List (String × String) := [("bookworm", "12"), ("trixie", "13")]

/-- `DEBIAN_URL_TEMPLATE.format(release=.., release_num=.., arch=..)`. -/
def debianUrl (release releaseNum arch : String) : String :=
  "https://cloud.debian.org/images/cloud/" ++ release ++ "/latest/debian-"
    ++ releaseNum ++ "-genericcloud-" ++ arch ++ ".qcow2"

/-- `UBUNTU_QCOW2_URL_TEMPLATE.format(release=.., arch=..)`. -/
def ubuntuQcow2Url (release arch : String) : String :=
  "https://cloud-images.ubuntu.com/" ++ release ++ "/current/" ++ release
    ++ "-server-cloudimg-" ++ arch ++ ".img"

/-- `UBUNTU_VZTMPL_URL_TEMPLATE.format(arch=.., build_date=..)`. -/
def ubuntuVztmplUrl (arch buildDate : String) : String :=
  "https://images.linuxcontainers.org/images/ubuntu/noble/" ++ arch
    ++ "/cloud/" ++ buildDate ++ "/rootfs.tar.xz"

/-- `TALOS_URL_TEMPLATE.format(schematic=.., version=.., extension=..)`. -/
def talosUrl (schematic version extension : String) : String :=
  "https://factory.talos.dev/image/" ++ schematic ++ "/v" ++ version
    ++ "/nocloud-amd64." ++ extension

/-- `VIRTIO_STABLE_URL`. -/
def virtioStableUrl : String :=
  "https://fedorapeople.org/groups/virt/virtio-win/direct-downloads/stable-virtio/virtio-win.iso"

/-- `ImageGenerator.get_image_type(extension)`. -/
def imageTypeOf (extension : String) : String :=
  (alookup (lowerStr extension) extToType).getD "unknown"

/-- `ImageGenerator.get_debian_version_number(codename)`. -/
def get_debian_version_number (codename : String) : String :=
  (alookup codename debianVersions).getD codename

/-- `ImageGenerator._resolve_version(release_raw, manifest)`: the
`versions.<name>` indirection (`versions` is `manifest.get('versions', {})`;
manifest release values are strings here, so Python's `str(...)` branch is
the identity). -/
def resolveVersion (releaseRaw : String) (versions : List (String × String)) : String :=
  if strStarts releaseRaw "versions." then
    (alookup (removeAllStr releaseRaw "versions.") versions).getD releaseRaw
  else releaseRaw

/-- `ImageGenerator.generate_image_url(key, spec, manifest)`. -/
def generate_image_url (key : String) (spec : Item)
    (versions : List (String × String)) : String :=
  let distro := alookup "distro" spec
  let extension := lowerStr (fieldD spec "extension" "")
  let arch := fieldD spec "arch" "amd64"
  let version := resolveVersion (fieldD spec "release" "") versions
  if distro = some "debian" then
    debianUrl version (get_debian_version_number version) arch
  else if distro = some "ubuntu" ∧ extension = "qcow2" then
    ubuntuQcow2Url version arch
  else if distro = some "ubuntu" ∧ imageTypeOf extension = "vztmpl" then
    ubuntuVztmplUrl arch (fieldD spec "build_date" "")
  else if distro = some "talos" then
    talosUrl (fieldD spec "schematic" "") version extension
  else if distro = some "windows" then
    if strContains key "windows_11" then ""
    else if strContains key "virtio" then virtioStableUrl
    else ""
  else ""

/-- `ImageGenerator.generate_image_filename(key, spec, manifest)`. -/
def generate_image_filename (key : String) (spec : Item)
    (versions : List (String × String)) : String :=
  let distro := (alookup "distro" spec).getD ""
  let extension := lowerStr (fieldD spec "extension" "")
  let arch := fieldD spec "arch" "amd64"
  let imageType := imageTypeOf extension
  let version := resolveVersion (fieldD spec "release" "") versions
  if imageType = "iso" then
    if distro = "talos" then
      "talos-" ++ version ++ "-nocloud-" ++ arch ++ ".iso"
    else if distro = "windows" then
      if key = "vm_windows_11_24h2" then "Win11_24H2_German_x64.iso"
      else "windows-" ++ version ++ "-" ++ arch ++ ".iso"
    else distro ++ "-" ++ version ++ "-" ++ arch ++ "." ++ extension
  else if imageType = "import" then
    if distro = "talos" then
      "talos-" ++ version ++ "-nocloud-" ++ arch ++ "." ++ extension
    else if distro = "ubuntu" ∧ extension = "qcow2" then
      "ubuntu-" ++ version ++ "-server-cloudimg-" ++ arch ++ "." ++ extension
    else if distro = "debian" then
      "debian-" ++ get_debian_version_number version ++ "-genericcloud-"
        ++ arch ++ "." ++ extension
    else distro ++ "-" ++ version ++ "-" ++ arch ++ "." ++ extension
  else if imageType = "vztmpl" then
    let buildDate := ⟨(fieldD spec "build_date" "").data.filter
      (fun c => c ≠ ':' ∧ c ≠ '_')⟩
    distro ++ "-" ++ fieldD spec "release" "" ++ "-cloud-" ++ arch ++ "-"
      ++ buildDate ++ "." ++ extension
  else distro ++ "-" ++ version ++ "-" ++ arch ++ "." ++ extension

/-! ### `validate_infrastructure.py` — data model -/

/-- The manifest collections consulted by the validators
(each a dict key → entity). -/
structure Manifest where
  images : List (String × Item) := []
  vm_templates : List (String × Item) := []
  container_templates : List (String × Item) := []
  resource_policies : List (String × Item) := []
  vm_cloud_init_profiles : List (String × Item) := []
  ci_user_configs : List (String × Item) := []
  ci_vendor_configs : List (String × Item) := []
  ci_network_configs : List (String × Item) := []
  ci_meta_configs : List (String × Item) := []
  vm_singles : List (String × Item) := []
  vm_batches : List (String × Item) := []
  ct_singles : List (String × Item) := []
  ct_batches : List (String × Item) := []

/-- One reference-validation error, modelling the message
`f"{item_type} '{key}' references unknown {ref_type}: {item[ref_field]}"`
structurally (item type, referencing item key, reference type, unknown
target key). -/
structure RefError where
  itemType : String
  key : String
  refType : String
  target : String
deriving DecidableEq, Repr

/-- The accumulated `{errors, warnings}` result of the reference pass
(`_validate_reference` only ever appends errors). -/
structure RefResult where
  errors : List RefError := []
  warnings : List String := []
deriving DecidableEq, Repr

/-- `PreValidation._validate_reference(result, items, item_type, ref_field,
ref_type, valid_keys)`: for each item, add one error when the reference
field is present and its value is not a valid key. -/
def validate_reference (r : RefResult) (items : List (String × Item))
    (itemType refField refType : String) (validKeys : List String) : RefResult :=
  match items with
  | [] => r
  | (key, item) :: rest =>
    match alookup refField item with
    | some v =>
      if v ∈ validKeys then validate_reference r rest itemType refField refType validKeys
      else
        validate_reference { r with errors := r.errors ++ [⟨itemType, key, refType, v⟩] }
          rest itemType refField refType validKeys
    | none => validate_reference r rest itemType refField refType validKeys

/-- Keys of a collection (`set(manifest.get(section, {}).keys())` as a
list in dict order). -/
def keyList (l : List (String × Item)) : List String := l.map Prod.fst

/-- `PreValidation._validate_references(manifest)`: the fixed table of 13
reference checks, in source order. -/
def validate_references (m : Manifest) : RefResult :=
  let imageKeys := keyList m.images
  let vmTemplateKeys := keyList m.vm_templates
  let ctTemplateKeys := keyList m.container_templates
  let policyKeys := keyList m.resource_policies
  let profileKeys := keyList m.vm_cloud_init_profiles
  let ciUserKeys := keyList m.ci_user_configs
  let ciVendorKeys := keyList m.ci_vendor_configs
  let ciNetworkKeys := keyList m.ci_network_configs
  let ciMetaKeys := keyList m.ci_meta_configs
  let r : RefResult := {}
  let r := validate_reference r m.vm_templates "VM template" "image" "image" imageKeys
  let r := validate_reference r m.vm_templates "VM template" "resource_policy"
    "resource policy" policyKeys
  let r := validate_reference r m.vm_templates "VM template" "cloud_init_profile"
    "cloud init profile" profileKeys
  let r := validate_reference r m.container_templates "Container template" "image"
    "image" imageKeys
  let r := validate_reference r m.container_templates "Container template"
    "resource_policy" "resource policy" policyKeys
  let r := validate_reference r m.vm_singles "VM single" "template_id" "template"
    vmTemplateKeys
  let r := validate_reference r m.vm_batches "VM batch" "template_id" "template"
    vmTemplateKeys
  let r := validate_reference r m.ct_singles "Container single" "template_id"
    "template" ctTemplateKeys
  let r := validate_reference r m.ct_batches "Container batch" "template_id"
    "template" ctTemplateKeys
  let r := validate_reference r m.vm_cloud_init_profiles "CI profile"
    "ci_user_data_id" "user config" ciUserKeys
  let r := validate_reference r m.vm_cloud_init_profiles "CI profile"
    "ci_vendor_data_id" "vendor config" ciVendorKeys
  let r := validate_reference r m.vm_cloud_init_profiles "CI profile"
    "ci_network_data_id" "network config" ciNetworkKeys
  let r := validate_reference r m.vm_cloud_init_profiles "CI profile"
    "ci_meta_data_id" "meta config" ciMetaKeys
  r

/-- Declarative description of the errors of one reference check: one error
per item whose reference field is present with a value outside the target
key set. -/
def refViolations (items : List (String × Item))
    (itemType refField refType : String) (validKeys : List String) : List RefError :=
  items.filterMap (fun p =>
    match alookup refField p.2 with
    | some v => if v ∈ validKeys then none else some ⟨itemType, p.1, refType, v⟩
    | none => none)

/-- A fully consistent manifest: every reference field that is present
names an existing key of its target collection (the 13 checks of the fixed
table). -/
def consistentRefs (items : List (String × Item)) (refField : String)
    (validKeys : List String) : Prop :=
  ∀ p ∈ items, ∀ v, alookup refField p.2 = some v → v ∈ validKeys

/-! ### `PostValidation._validate_completeness` / `_compare_sets` -/

/-- Python sets of keys are modelled as lists considered up to membership;
set construction points dedup them.  `sorted()` needs a computable
lexicographic order on strings: code-point comparison, as Python compares
`str` values. -/
def listLeLex : List Char → List Char → Bool
  | [], _ => true
  | _ :: _, [] => false
  | a :: as, b :: bs => if a = b then listLeLex as bs else decide (a.toNat < b.toNat)

/-- String comparison by code points (Python `<=` on `str`). -/
def strLeB (a b : String) : Bool := listLeLex a.data b.data

/-- Ordered insertion for `sorted()`. -/
def insSorted (s : String) : List String → List String
  | [] => [s]
  | t :: ts => if strLeB s t then s :: t :: ts else t :: insSorted s ts

/-- Model of Python `sorted(keys)`. -/
def sortStrings (l : List String) : List String := l.foldr insSorted []

/-- Set difference `a - b` of key sets. -/
def setDiff (a b : List String) : List String :=
  (a.filter (fun k => decide (k ∉ b))).dedup

/-- Set union (`set.update`) of key sets. -/
def setUnion (a b : List String) : List String := (a ++ b).dedup

/-- The per-section key sets parsed out of the generated file by
`_parse_generated_components` (a block is recognised by its
`<identifier> = ` opening brace; `components.get(section, set())`). -/
structure GeneratedComponents where
  images : List String := []
  vm_templates : List String := []
  container_templates : List String := []
  virtual_machines : List String := []
  containers : List String := []
  ci_user_configs : List String := []
  ci_vendor_configs : List String := []
  ci_network_configs : List String := []
  ci_meta_configs : List String := []

/-- One completeness error, modelling the messages
`Missing <section> keys in generated file: <sorted keys>` and
`Unexpected <section> keys in generated file: <sorted keys>` structurally. -/
inductive CompErr where
  | missingKeys (sectionName : String) (keys : List String)
  | unexpectedKeys (sectionName : String) (keys : List String)
deriving DecidableEq, Repr

/-- `PostValidation._compare_sets(result, component_type, manifest_keys,
generated_keys)`: append a missing-keys error and an unexpected-keys error
when the respective set difference is nonempty, each carrying the full
sorted difference. -/
def compare_sets (r : List CompErr) (componentType : String)
    (manifestKeys generatedKeys : List String) : List CompErr :=
  let missing := setDiff manifestKeys generatedKeys
  let extra := setDiff generatedKeys manifestKeys
  let r1 :=
    if missing ≠ [] then r ++ [.missingKeys componentType (sortStrings missing)] else r
  if extra ≠ [] then r1 ++ [.unexpectedKeys componentType (sortStrings extra)] else r1

/-- The key sanitisation applied by `_validate_completeness` to the
instance and cloud-init sections: `key.replace('-', '_')`. -/
def sanitizeKey (s : String) : String :=
  ⟨s.data.map (fun c => if c = '-' then '_' else c)⟩

/-- The key set of a manifest section (dict keys are unique). -/
def keysOf (l : List (String × Item)) : List String :=
  l.map Prod.fst

/-- The sanitised key set of a manifest section. -/
def sanKeysOf (l : List (String × Item)) : List String :=
  (l.map (fun p => sanitizeKey p.1)).dedup

/-- `PostValidation._validate_completeness(manifest, generated_components)`:
the nine section comparisons in source order.  The `images`,
`vm_templates` and `container_templates` manifest keys are compared as-is;
the combined `virtual_machines` / `containers` singles-and-batches keys and
the four cloud-init config sections are sanitised with
`key.replace('-', '_')`. -/
def validate_completeness (m : Manifest) (g : GeneratedComponents) : List CompErr :=
  let r := compare_sets [] "images" (keysOf m.images) g.images
  let r := compare_sets r "vm_templates" (keysOf m.vm_templates) g.vm_templates
  let r := compare_sets r "container_templates" (keysOf m.container_templates)
    g.container_templates
  let r := compare_sets r "virtual_machines" (setUnion (sanKeysOf m.vm_singles) (sanKeysOf m.vm_batches))
    g.virtual_machines
  let r := compare_sets r "containers" (setUnion (sanKeysOf m.ct_singles) (sanKeysOf m.ct_batches))
    g.containers
  let r := compare_sets r "ci_user_configs" (sanKeysOf m.ci_user_configs) g.ci_user_configs
  let r := compare_sets r "ci_vendor_configs" (sanKeysOf m.ci_vendor_configs) g.ci_vendor_configs
  let r := compare_sets r "ci_network_configs" (sanKeysOf m.ci_network_configs)
    g.ci_network_configs
  let r := compare_sets r "ci_meta_configs" (sanKeysOf m.ci_meta_configs) g.ci_meta_configs
  r

/-- The claim's reading of the sanitisation rule: every non-alphanumeric
character of a manifest key is normalised to an underscore. -/
def claimSanitizeKey (s : String) : String :=
  ⟨s.data.map (fun c => if c.isAlphanum then c else '_')⟩

/-- The claim-normalised key set of a manifest section. -/
def claimKeysOf (l : List (String × Item)) : List String :=
  (l.map (fun p => claimSanitizeKey p.1)).dedup

/-- The completeness check as the claim states it: every section's
manifest keys normalised by `claimSanitizeKey` before comparison. -/
def completenessClaim (m : Manifest) (g : GeneratedComponents) : List CompErr :=
  let r := compare_sets [] "images" (claimKeysOf m.images) g.images
  let r := compare_sets r "vm_templates" (claimKeysOf m.vm_templates) g.vm_templates
  let r := compare_sets r "container_templates" (claimKeysOf m.container_templates)
    g.container_templates
  let r := compare_sets r "virtual_machines"
    (setUnion (claimKeysOf m.vm_singles) (claimKeysOf m.vm_batches)) g.virtual_machines
  let r := compare_sets r "containers" (setUnion (claimKeysOf m.ct_singles) (claimKeysOf m.ct_batches))
    g.containers
  let r := compare_sets r "ci_user_configs" (claimKeysOf m.ci_user_configs) g.ci_user_configs
  let r := compare_sets r "ci_vendor_configs" (claimKeysOf m.ci_vendor_configs)
    g.ci_vendor_configs
  let r := compare_sets r "ci_network_configs" (claimKeysOf m.ci_network_configs)
    g.ci_network_configs
  let r := compare_sets r "ci_meta_configs" (claimKeysOf m.ci_meta_configs) g.ci_meta_configs
  r

/-- Declarative per-section error list: the missing-keys error (sorted
full difference) followed by the unexpected-keys error. -/
def sectionErrors (componentType : String) (manifestKeys generatedKeys : List String) :
    List CompErr :=
  (if setDiff manifestKeys generatedKeys ≠ [] then
      [CompErr.missingKeys componentType (sortStrings (setDiff manifestKeys generatedKeys))]
    else []) ++
  (if setDiff generatedKeys manifestKeys ≠ [] then
      [CompErr.unexpectedKeys componentType (sortStrings (setDiff generatedKeys manifestKeys))]
    else [])

/-! ### `ValidationResult` and the process exit code -/

/-- Exit codes of `validate_infrastructure.py`. -/
def EXIT_SUCCESS : Nat := 0

/-- Exit code for a validation failure. -/
def EXIT_VALIDATION_ERROR : Nat := 1

/-- `ValidationResult`: accumulated errors and warnings. -/
structure ValidationResult where
  errors : List String
  warnings : List String
deriving DecidableEq, Repr

/-- `ValidationResult.is_valid()` / `__bool__`: `len(self.errors) == 0`. -/
def ValidationResult.is_valid (r : ValidationResult) : Bool :=
  r.errors.length == 0

/-- The final statement of `main()`:
`EXIT_SUCCESS if result else EXIT_VALIDATION_ERROR`. -/
def mainExitCode (r : ValidationResult) : Nat :=
  if r.is_valid then EXIT_SUCCESS else EXIT_VALIDATION_ERROR

/-! ### Concrete sample data for witnesses and counterexamples -/

/-- A 64-hex-digit token (a syntactically valid sha256 digest). -/
def hex64 : String :=
  "aaaaaaaaaaaaaaaaaaaaaaaaaaaaaaaaaaaaaaaaaaaaaaaaaaaaaaaaaaaaaaaa"

/-- A sample network oracle: only `https://h/SHA256SUMS` resolves, to a
one-line sums list naming `f.img`. -/
def netSample : String → Option String := fun u =>
  if u = "https://h/SHA256SUMS" then some (hex64 ++ "  f.img\n") else none

/-- A download oracle on which every download fails. -/
def dlNone : String → Option String := fun _ => none

/-- A sample artifact with a non-volatile URL. -/
def imageStatic : ImageInfo := ⟨"img", "https://h/f.img", "vm", "f.img"⟩

/-- The same artifact under a URL containing `daily/`. -/
def imageDaily : ImageInfo := ⟨"img", "https://h/daily/f.img", "vm", "f.img"⟩

/-- A timestamp three days before `nowSample`. -/
def tsOld : String := "2024-01-07 00:00:00"

/-- `datetime.now()` of the sample runs, in epoch seconds. -/
def nowSample : Nat := (strptimeTs "2024-01-10 00:00:00").getD 0

/-- A cached record for `imageStatic`, last verified three days ago. -/
def recStatic : ChecksumInfo := ⟨hex64, "sha256", "https://h/f.img", tsOld⟩

/-- A cached record for `imageDaily`, last verified three days ago. -/
def recDaily : ChecksumInfo := ⟨hex64, "sha256", "https://h/daily/f.img", tsOld⟩

/-- A one-image manifest for the orchestrator witnesses. -/
def imagesSample : List (String × ImageInfo) := [("k1", imageStatic)]

/-- The cache produced by a successful first run over `imagesSample`. -/
def prevSample : List (String × ChecksumInfo) := [("k1", recStatic)]

/-- Counterexample manifest for the completeness claim: one cloud-init
user config whose key contains a dot. -/
def manifestDot : Manifest := { ci_user_configs := [("a.b", [])] }

/-- Generated components matching `manifestDot` exactly as the code
compares them. -/
def generatedDot : GeneratedComponents := { ci_user_configs := ["a.b"] }

/-- A reference item that lacks the `image` field. -/
def itemsNoField : List (String × Item) := [("t1", [("os_type", "l26")])]

/-- The Debian bookworm image specification of the deriver claim. -/
def specDebian : Item :=
  [("distro", "debian"), ("release", "bookworm"), ("extension", "qcow2"), ("arch", "amd64")]

/-!
## Theorems
-/

/-- C8: for an image specification with distribution `debian`, release
`bookworm`, extension `qcow2` and architecture `amd64`, the derived Debian
version number is `12`, the generated filename is
`debian-12-genericcloud-amd64.qcow2`, and the generated URL is the Debian
cloud-image URL template instantiated with release `bookworm`, version
number `12` and architecture `amd64`. -/
theorem c8_debian_url_and_filename :
    get_debian_version_number "bookworm" = "12"
    ∧ generate_image_filename "vm_debian_bookworm" specDebian [] =
        "debian-12-genericcloud-amd64.qcow2"
    ∧ generate_image_url "vm_debian_bookworm" specDebian [] =
        debianUrl "bookworm" "12" "amd64"
    ∧ debianUrl "bookworm" "12" "amd64" =
        "https://cloud.debian.org/images/cloud/bookworm/latest/debian-12-genericcloud-amd64.qcow2" := by
  refine ⟨by decide, by decide, by decide, by decide⟩

/-- C10: a validation result is valid exactly when its errors list is
empty, the process exit code is success exactly in that case, and neither
depends on the warnings list: warnings without errors still map to the
success exit code. -/
theorem c10_exit_code_ignores_warnings :
    (∀ (e w : List String), (ValidationResult.mk e w).is_valid = true ↔ e = [])
    ∧ (∀ (e w : List String), mainExitCode ⟨e, w⟩ =
        if e = [] then EXIT_SUCCESS else EXIT_VALIDATION_ERROR)
    ∧ (∀ (e w w' : List String), mainExitCode ⟨e, w⟩ = mainExitCode ⟨e, w'⟩)
    ∧ mainExitCode ⟨[], ["sample warning"]⟩ = EXIT_SUCCESS := by
  refine ⟨?_, ?_, ?_, by decide⟩
  · intro e w; cases e <;> simp [ValidationResult.is_valid]
  · intro e w; cases e <;> simp [mainExitCode, ValidationResult.is_valid]
  · intro e w w'; cases e <;> simp [mainExitCode, ValidationResult.is_valid]

/-- C2: the staleness policy skips re-verification iff an existing record
is present, its `source_url` equals the artifact's current URL, its
`last_updated` timestamp parses, and the age in whole days is strictly
below the threshold — 1 day for a volatile URL (containing `current/`,
`latest/` or `daily/`), 7 days otherwise.  In particular a 3-day-old
record with an unchanged non-volatile URL is skipped, and the same record
under a URL containing `daily/` is not. -/
theorem c2_staleness_policy :
    (∀ (nowT : Nat) (image : ImageInfo) (existing : Option ChecksumInfo),
      skipDecision nowT image existing = true ↔
        ∃ e, existing = some e ∧ e.source_url = image.url ∧
          ∃ t, strptimeTs e.last_updated = some t ∧
            ageDays nowT t < (if isVolatileUrl image.url then (1 : Int) else 7))
    ∧ skipDecision nowSample imageStatic (some recStatic) = true
    ∧ skipDecision nowSample imageDaily (some recDaily) = false := by
  refine ⟨?_, by decide, by decide⟩
  intro nowT image existing
  cases existing with
  | none => simp [skipDecision]
  | some e =>
    show shouldSkipUpdate nowT image e = true ↔ _
    unfold shouldSkipUpdate
    by_cases h1 : e.source_url = image.url
    · rw [if_neg (by simpa using h1)]
      by_cases h2 : e.last_updated = ""
      · rw [if_pos h2]
        constructor
        · intro h; simp at h
        · rintro ⟨e', he', -, t, hp, -⟩
          injection he' with he''; subst he''
          rw [h2] at hp
          have : strptimeTs "" = none := by decide
          rw [this] at hp
          cases hp
      · rw [if_neg h2]
        cases hp : strptimeTs e.last_updated with
        | none =>
          constructor
          · intro h; simp at h
          · rintro ⟨e', he', -, t, hp', -⟩
            injection he' with he''; subst he''
            rw [hp] at hp'
            cases hp'
        | some t0 =>
          constructor
          · intro h
            exact ⟨e, rfl, h1, t0, hp, of_decide_eq_true h⟩
          · rintro ⟨e', he', -, t', hp', hlt⟩
            injection he' with he''; subst he''
            rw [hp] at hp'
            injection hp' with ht; subst ht
            exact decide_eq_true hlt
    · rw [if_pos h1]
      constructor
      · intro h; simp at h
      · rintro ⟨e', he', hsu, -⟩
        injection he' with he''; subst he''
        exact absurd hsu h1

/-- The imperative line scan equals its declarative description: the first
matching token of the first line that both contains the filename and holds
such a token. -/
theorem scanLines_eq_findSome (f : String) (n : Nat) (lines : List String) :
    scanLines f n lines =
      lines.findSome? (fun line =>
        if strContains line f then (splitWsStr line).find? (fun p => isHexTok n p)
        else none) := by
  induction lines with
  | nil => rfl
  | cons line rest ih =>
    simp only [scanLines]
    rw [List.findSome?_cons]
    by_cases h : strContains line f = true
    · rw [if_pos h, if_pos h]
      cases hf : (splitWsStr line).find? (fun p => isHexTok n p) with
      | some p => rfl
      | none => exact ih
    · rw [if_neg h, if_neg h]
      exact ih

/-- The spec-side probe, rephrased through the imperative line scan. -/
theorem probeOne_eq_scan (net : String → Option String) (url s a : String) (n : Nat) :
    probeOne net url s a n =
      match net (baseUrlOf url ++ "/" ++ s) with
      | none => none
      | some content =>
        match scanLines (fileNameOf url) n (splitLines content) with
        | none => none
        | some tok => some ⟨lowerStr tok, a, "", ""⟩ := by
  simp only [probeOne, scanLines_eq_findSome]

/-- C1: remote checksum acquisition probes `SHA512SUMS` (128-hex tokens),
`SHA256SUMS` (64-hex) and `CHECKSUMS` (64-hex) in that priority order at
the URL's base directory, returning the first expected-length token found
on a line that also contains the artifact's filename; and when the 512-bit
probe yields nothing while the 256-bit list yields a matching 64-hex
token, the returned record's algorithm is `sha256` and the result does not
depend on the download-and-hash fallback oracle (the fallback is never
invoked). -/
theorem c1_remote_probe_order :
    (∀ (net : String → Option String) (url : String),
      getRemoteChecksum net url = remoteChecksumSpec net url)
    ∧ (∀ (net dl dl' : String → Option String) (nowStr : String) (nowT : Nat)
        (image : ImageInfo) (r : ChecksumInfo),
        probeOne net image.url "SHA512SUMS" "sha512" 128 = none →
        probeOne net image.url "SHA256SUMS" "sha256" 64 = some r →
        getChecksum net dl nowStr nowT image none =
          some { r with source_url := image.url, last_updated := nowStr }
        ∧ r.algorithm = "sha256"
        ∧ getChecksum net dl nowStr nowT image none =
            getChecksum net dl' nowStr nowT image none) := by
  have hpart1 : ∀ (net : String → Option String) (url : String),
      getRemoteChecksum net url = remoteChecksumSpec net url := by
    intro net url
    unfold getRemoteChecksum checksumPatterns remoteChecksumSpec
    rw [probeOne_eq_scan, probeOne_eq_scan, probeOne_eq_scan]
    simp only [probeLoop]
    cases net (baseUrlOf url ++ "/" ++ "SHA512SUMS") with
    | some c1 =>
      dsimp only
      cases scanLines (fileNameOf url) 128 (splitLines c1) with
      | some tok => rfl
      | none =>
        dsimp only
        cases net (baseUrlOf url ++ "/" ++ "SHA256SUMS") with
        | some c2 =>
          dsimp only
          cases scanLines (fileNameOf url) 64 (splitLines c2) with
          | some tok => rfl
          | none =>
            dsimp only
            cases net (baseUrlOf url ++ "/" ++ "CHECKSUMS") with
            | some c3 => dsimp only; cases scanLines (fileNameOf url) 64 (splitLines c3) <;> rfl
            | none => rfl
        | none =>
          dsimp only
          cases net (baseUrlOf url ++ "/" ++ "CHECKSUMS") with
          | some c3 => dsimp only; cases scanLines (fileNameOf url) 64 (splitLines c3) <;> rfl
          | none => rfl
    | none =>
      dsimp only
      cases net (baseUrlOf url ++ "/" ++ "SHA256SUMS") with
      | some c2 =>
        dsimp only
        cases scanLines (fileNameOf url) 64 (splitLines c2) with
        | some tok => rfl
        | none =>
          dsimp only
          cases net (baseUrlOf url ++ "/" ++ "CHECKSUMS") with
          | some c3 => dsimp only; cases scanLines (fileNameOf url) 64 (splitLines c3) <;> rfl
          | none => rfl
      | none =>
        dsimp only
        cases net (baseUrlOf url ++ "/" ++ "CHECKSUMS") with
        | some c3 => dsimp only; cases scanLines (fileNameOf url) 64 (splitLines c3) <;> rfl
        | none => rfl
  refine ⟨hpart1, ?_⟩
  intro net dl dl' nowStr nowT image r h512 h256
  have hrc : getRemoteChecksum net image.url = some r := by
    rw [hpart1]
    unfold remoteChecksumSpec
    rw [h512, h256]
  have halg : r.algorithm = "sha256" := by
    rw [probeOne_eq_scan] at h256
    cases hn : net (baseUrlOf image.url ++ "/" ++ "SHA256SUMS") with
    | none => rw [hn] at h256; cases h256
    | some c =>
      rw [hn] at h256
      dsimp only at h256
      cases hs : scanLines (fileNameOf image.url) 64 (splitLines c) with
      | none => rw [hs] at h256; cases h256
      | some tok =>
        rw [hs] at h256
        injection h256 with h'
        rw [← h']
  refine ⟨?_, halg, ?_⟩
  · simp [getChecksum, skipDecision, hrc]
  · simp [getChecksum, skipDecision, hrc]

/-- Witness for C1 at a concrete network oracle: the 512-bit probe fails,
the 256-bit probe matches, and acquisition returns the sha256 record. -/
theorem c1_remote_probe_order_witness :
    probeOne netSample "https://h/f.img" "SHA512SUMS" "sha512" 128 = none
    ∧ probeOne netSample "https://h/f.img" "SHA256SUMS" "sha256" 64 =
        some ⟨hex64, "sha256", "", ""⟩
    ∧ getChecksum netSample dlNone "2024-01-10 00:00:00" nowSample imageStatic none =
        some ⟨hex64, "sha256", "https://h/f.img", "2024-01-10 00:00:00"⟩ :=
  ⟨by decide, by decide,
    (c1_remote_probe_order.2 netSample dlNone dlNone "2024-01-10 00:00:00" nowSample
      imageStatic ⟨hex64, "sha256", "", ""⟩ (by decide) (by decide)).1⟩

/-- The accumulator-threading reference check equals appending its
declarative violation list to the incoming errors; warnings are never
touched. -/
theorem validate_reference_eq (items : List (String × Item)) (r : RefResult)
    (itemType refField refType : String) (validKeys : List String) :
    validate_reference r items itemType refField refType validKeys =
      ⟨r.errors ++ refViolations items itemType refField refType validKeys, r.warnings⟩ := by
  induction items generalizing r with
  | nil => simp [validate_reference, refViolations]
  | cons p rest ih =>
    obtain ⟨key, item⟩ := p
    cases h : alookup refField item with
    | none =>
      simp only [validate_reference, refViolations, List.filterMap_cons, h]
      exact ih r
    | some v =>
      by_cases hv : v ∈ validKeys
      · simp only [validate_reference, refViolations, List.filterMap_cons, h, hv, if_true,
          if_pos hv]
        exact ih r
      · simp only [validate_reference, refViolations, List.filterMap_cons, h, hv, if_false,
          if_neg hv]
        rw [ih]
        simp only [List.append_assoc, List.singleton_append, RefResult.mk.injEq, and_true]
        rfl

/-- A reference check yields no error exactly when every present reference
field resolves. -/
theorem refViolations_eq_nil_iff (items : List (String × Item))
    (itemType refField refType : String) (validKeys : List String) :
    refViolations items itemType refField refType validKeys = [] ↔
      consistentRefs items refField validKeys := by
  simp only [refViolations, List.filterMap_eq_nil_iff, consistentRefs]
  constructor
  · intro h p hp v hv
    have hpv := h p hp
    rw [hv] at hpv
    dsimp only at hpv
    by_cases hm : v ∈ validKeys
    · exact hm
    · rw [if_neg hm] at hpv
      cases hpv
  · intro h p hp
    cases halk : alookup refField p.2 with
    | none => rfl
    | some v =>
      dsimp only
      rw [if_pos (h p hp v halk)]

/-- C6: pre-generation reference validation applies the fixed table of
(source collection, reference field, target collection) triples uniformly,
accumulating one error per violating reference (naming the referencing
item and the unknown target key) without short-circuiting, it never emits
warnings, and yields zero errors exactly for a fully consistent
manifest. -/
theorem c6_reference_table (m : Manifest) :
    (validate_references m).warnings = []
    ∧ (validate_references m).errors =
        refViolations m.vm_templates "VM template" "image" "image" (keyList m.images)
        ++ refViolations m.vm_templates "VM template" "resource_policy" "resource policy"
            (keyList m.resource_policies)
        ++ refViolations m.vm_templates "VM template" "cloud_init_profile" "cloud init profile"
            (keyList m.vm_cloud_init_profiles)
        ++ refViolations m.container_templates "Container template" "image" "image"
            (keyList m.images)
        ++ refViolations m.container_templates "Container template" "resource_policy"
            "resource policy" (keyList m.resource_policies)
        ++ refViolations m.vm_singles "VM single" "template_id" "template"
            (keyList m.vm_templates)
        ++ refViolations m.vm_batches "VM batch" "template_id" "template"
            (keyList m.vm_templates)
        ++ refViolations m.ct_singles "Container single" "template_id" "template"
            (keyList m.container_templates)
        ++ refViolations m.ct_batches "Container batch" "template_id" "template"
            (keyList m.container_templates)
        ++ refViolations m.vm_cloud_init_profiles "CI profile" "ci_user_data_id" "user config"
            (keyList m.ci_user_configs)
        ++ refViolations m.vm_cloud_init_profiles "CI profile" "ci_vendor_data_id"
            "vendor config" (keyList m.ci_vendor_configs)
        ++ refViolations m.vm_cloud_init_profiles "CI profile" "ci_network_data_id"
            "network config" (keyList m.ci_network_configs)
        ++ refViolations m.vm_cloud_init_profiles "CI profile" "ci_meta_data_id" "meta config"
            (keyList m.ci_meta_configs)
    ∧ ((validate_references m).errors = [] ↔
        (consistentRefs m.vm_templates "image" (keyList m.images)
        ∧ consistentRefs m.vm_templates "resource_policy" (keyList m.resource_policies)
        ∧ consistentRefs m.vm_templates "cloud_init_profile" (keyList m.vm_cloud_init_profiles)
        ∧ consistentRefs m.container_templates "image" (keyList m.images)
        ∧ consistentRefs m.container_templates "resource_policy" (keyList m.resource_policies)
        ∧ consistentRefs m.vm_singles "template_id" (keyList m.vm_templates)
        ∧ consistentRefs m.vm_batches "template_id" (keyList m.vm_templates)
        ∧ consistentRefs m.ct_singles "template_id" (keyList m.container_templates)
        ∧ consistentRefs m.ct_batches "template_id" (keyList m.container_templates)
        ∧ consistentRefs m.vm_cloud_init_profiles "ci_user_data_id" (keyList m.ci_user_configs)
        ∧ consistentRefs m.vm_cloud_init_profiles "ci_vendor_data_id"
            (keyList m.ci_vendor_configs)
        ∧ consistentRefs m.vm_cloud_init_profiles "ci_network_data_id"
            (keyList m.ci_network_configs)
        ∧ consistentRefs m.vm_cloud_init_profiles "ci_meta_data_id"
            (keyList m.ci_meta_configs))) := by
  have hacc : validate_references m = ⟨refViolations m.vm_templates "VM template" "image"
      "image" (keyList m.images)
      ++ refViolations m.vm_templates "VM template" "resource_policy" "resource policy"
          (keyList m.resource_policies)
      ++ refViolations m.vm_templates "VM template" "cloud_init_profile" "cloud init profile"
          (keyList m.vm_cloud_init_profiles)
      ++ refViolations m.container_templates "Container template" "image" "image"
          (keyList m.images)
      ++ refViolations m.container_templates "Container template" "resource_policy"
          "resource policy" (keyList m.resource_policies)
      ++ refViolations m.vm_singles "VM single" "template_id" "template"
          (keyList m.vm_templates)
      ++ refViolations m.vm_batches "VM batch" "template_id" "template"
          (keyList m.vm_templates)
      ++ refViolations m.ct_singles "Container single" "template_id" "template"
          (keyList m.container_templates)
      ++ refViolations m.ct_batches "Container batch" "template_id" "template"
          (keyList m.container_templates)
      ++ refViolations m.vm_cloud_init_profiles "CI profile" "ci_user_data_id" "user config"
          (keyList m.ci_user_configs)
      ++ refViolations m.vm_cloud_init_profiles "CI profile" "ci_vendor_data_id"
          "vendor config" (keyList m.ci_vendor_configs)
      ++ refViolations m.vm_cloud_init_profiles "CI profile" "ci_network_data_id"
          "network config" (keyList m.ci_network_configs)
      ++ refViolations m.vm_cloud_init_profiles "CI profile" "ci_meta_data_id" "meta config"
          (keyList m.ci_meta_configs), []⟩ := by
    unfold validate_references
    simp only [validate_reference_eq, List.nil_append, List.append_assoc]
  refine ⟨by rw [hacc], by rw [hacc], ?_⟩
  rw [hacc]
  simp only [List.append_eq_nil, refViolations_eq_nil_iff, and_assoc]

/-- C9: an entity lacking the reference field entirely contributes neither
an error nor a warning, and a violation is recorded exactly when the field
is present with a value outside the target collection. -/
theorem c9_missing_field_silent :
    (∀ (r : RefResult) (items : List (String × Item)) (itemType refField refType : String)
        (validKeys : List String),
      (∀ p ∈ items, alookup refField p.2 = none) →
        validate_reference r items itemType refField refType validKeys = r)
    ∧ (∀ (r : RefResult) (key : String) (item : Item) (itemType refField refType : String)
        (validKeys : List String) (v : String),
        alookup refField item = some v → v ∉ validKeys →
          validate_reference r [(key, item)] itemType refField refType validKeys =
            ⟨r.errors ++ [⟨itemType, key, refType, v⟩], r.warnings⟩) := by
  constructor
  · intro r items itemType refField refType validKeys h
    rw [validate_reference_eq]
    have hnil : refViolations items itemType refField refType validKeys = [] := by
      simp only [refViolations, List.filterMap_eq_nil_iff]
      intro p hp
      rw [h p hp]
    rw [hnil]
    simp
  · intro r key item itemType refField refType validKeys v hv hnv
    rw [validate_reference_eq]
    simp [refViolations, hv, hnv]

/-- Witness for C9: a template without an `image` field produces no error
and no warning. -/
theorem c9_missing_field_silent_witness :
    (∀ p ∈ itemsNoField, alookup "image" p.2 = none)
    ∧ validate_reference ⟨[], []⟩ itemsNoField "VM template" "image" "image" ["img1"] =
        ⟨[], []⟩ :=
  ⟨by decide,
    c9_missing_field_silent.1 ⟨[], []⟩ itemsNoField "VM template" "image" "image" ["img1"]
      (by decide)⟩

/-- One `_compare_sets` call appends its per-section errors to the
accumulated list. -/
theorem compare_sets_eq (r : List CompErr) (componentType : String)
    (manifestKeys generatedKeys : List String) :
    compare_sets r componentType manifestKeys generatedKeys =
      r ++ sectionErrors componentType manifestKeys generatedKeys := by
  unfold compare_sets sectionErrors
  by_cases h1 : setDiff manifestKeys generatedKeys = [] <;>
    by_cases h2 : setDiff generatedKeys manifestKeys = [] <;>
      simp [h1, h2, List.append_assoc]

/-- C5 (counterexample): the claim normalises every section's manifest
keys with the non-alphanumeric-to-underscore rule, but the code compares
cloud-init config keys after replacing only hyphens: for the key `a.b`
the code reports nothing while the claim's reading demands a missing-keys
and an unexpected-keys error. -/
theorem c5_sanitization_counterexample :
    validate_completeness manifestDot generatedDot = []
    ∧ completenessClaim manifestDot generatedDot =
        [CompErr.missingKeys "ci_user_configs" ["a_b"],
         CompErr.unexpectedKeys "ci_user_configs" ["a.b"]]
    ∧ validate_completeness manifestDot generatedDot ≠
        completenessClaim manifestDot generatedDot := by
  refine ⟨by decide, by decide, by decide⟩

/-- C5 (amended): post-generation validation compares, per section, the
generated key set against the manifest's key set — the instance sections
(`virtual_machines`, `containers`: singles and batches combined) and the
four cloud-init config sections normalised by replacing hyphens with
underscores, the `images` and template sections compared as-is — and
reports every asymmetric difference with the full sorted list of
offending keys, a missing-keys error for manifest-minus-generated and an
unexpected-keys error for generated-minus-manifest. -/
theorem c5_completeness_amended (m : Manifest) (g : GeneratedComponents) :
    validate_completeness m g =
      sectionErrors "images" (keysOf m.images) g.images
      ++ sectionErrors "vm_templates" (keysOf m.vm_templates) g.vm_templates
      ++ sectionErrors "container_templates" (keysOf m.container_templates)
          g.container_templates
      ++ sectionErrors "virtual_machines"
          (setUnion (sanKeysOf m.vm_singles) (sanKeysOf m.vm_batches)) g.virtual_machines
      ++ sectionErrors "containers"
          (setUnion (sanKeysOf m.ct_singles) (sanKeysOf m.ct_batches)) g.containers
      ++ sectionErrors "ci_user_configs" (sanKeysOf m.ci_user_configs) g.ci_user_configs
      ++ sectionErrors "ci_vendor_configs" (sanKeysOf m.ci_vendor_configs) g.ci_vendor_configs
      ++ sectionErrors "ci_network_configs" (sanKeysOf m.ci_network_configs)
          g.ci_network_configs
      ++ sectionErrors "ci_meta_configs" (sanKeysOf m.ci_meta_configs) g.ci_meta_configs := by
  unfold validate_completeness
  simp only [compare_sets_eq, List.nil_append, List.append_assoc]

/-- Serialising and re-reading one record is the identity,
field for field. -/
theorem loadRecord_saveRecord (i : ChecksumInfo) : loadRecord (saveRecord i) = i := rfl

/-- A key-preserving value map commutes with ordered insertion. -/
theorem insertByKey_map {β γ : Type} (f : β → γ) (p : String × β) (l : List (String × β)) :
    (insertByKey p l).map (fun q => (q.1, f q.2)) =
      insertByKey (p.1, f p.2) (l.map (fun q => (q.1, f q.2))) := by
  induction l with
  | nil => rfl
  | cons q t ih =>
    simp only [insertByKey, List.map_cons]
    by_cases h : p.1 ≤ q.1
    · rw [if_pos h, if_pos h]
      simp
    · rw [if_neg h, if_neg h]
      simp [ih]

/-- A key-preserving value map commutes with the key sort. -/
theorem sortByKey_map {β γ : Type} (f : β → γ) (l : List (String × β)) :
    (sortByKey l).map (fun q => (q.1, f q.2)) =
      sortByKey (l.map (fun q => (q.1, f q.2))) := by
  induction l with
  | nil => rfl
  | cons p t ih =>
    simp only [sortByKey, List.foldr_cons] at *
    rw [insertByKey_map, ih]
    rfl

/-- Ordered insertion permutes consing. -/
theorem insertByKey_perm {β : Type} (p : String × β) (l : List (String × β)) :
    List.Perm (insertByKey p l) (p :: l) := by
  induction l with
  | nil => exact List.Perm.refl _
  | cons q t ih =>
    simp only [insertByKey]
    by_cases h : p.1 ≤ q.1
    · rw [if_pos h]
    · rw [if_neg h]
      exact (ih.cons q).trans (List.Perm.swap p q t)

/-- The key sort is a permutation. -/
theorem sortByKey_perm {β : Type} (l : List (String × β)) : List.Perm (sortByKey l) l := by
  induction l with
  | nil => exact List.Perm.refl _
  | cons p t ih =>
    simp only [sortByKey, List.foldr_cons] at *
    exact (insertByKey_perm p _).trans (ih.cons p)

/-- A successful lookup yields a member of the list. -/
theorem alookup_mem {β : Type} (k : String) (v : β) (l : List (String × β))
    (h : alookup k l = some v) : (k, v) ∈ l := by
  induction l with
  | nil => cases h
  | cons q t ih =>
    obtain ⟨k', v'⟩ := q
    by_cases hk : k = k'
    · rw [alookup, if_pos hk] at h
      injection h with h'
      subst hk; subst h'
      exact List.mem_cons_self _ _
    · rw [alookup, if_neg hk] at h
      exact List.mem_cons_of_mem _ (ih h)

/-- Lookup fails exactly off the key set. -/
theorem alookup_eq_none {β : Type} (k : String) (l : List (String × β)) :
    alookup k l = none ↔ k ∉ l.map Prod.fst := by
  induction l with
  | nil => simp [alookup]
  | cons q t ih =>
    obtain ⟨k', v'⟩ := q
    by_cases hk : k = k'
    · subst hk
      simp [alookup]
    · simp [alookup, if_neg hk, hk, ih]

/-- With unique keys, membership determines the lookup. -/
theorem alookup_of_mem {β : Type} (k : String) (v : β) (l : List (String × β))
    (hn : (l.map Prod.fst).Nodup) (h : (k, v) ∈ l) : alookup k l = some v := by
  induction l with
  | nil => cases h
  | cons q t ih =>
    obtain ⟨k', v'⟩ := q
    rcases List.mem_cons.mp h with heq | hmem
    · injection heq with h1 h2
      subst h1; subst h2
      rw [alookup, if_pos rfl]
    · have hk : k ≠ k' := by
        intro hkk
        subst hkk
        exact (List.nodup_cons.mp hn).1 (List.mem_map.mpr ⟨(k, v), hmem, rfl⟩)
      rw [alookup, if_neg hk]
      exact ih (List.nodup_cons.mp hn).2 hmem

/-- Lookup is invariant under permutation when keys are unique. -/
theorem alookup_perm {β : Type} (l₁ l₂ : List (String × β)) (hp : List.Perm l₁ l₂)
    (hn : (l₁.map Prod.fst).Nodup) (k : String) : alookup k l₁ = alookup k l₂ := by
  have hn₂ : (l₂.map Prod.fst).Nodup := ((hp.map Prod.fst).nodup_iff).mp hn
  cases h : alookup k l₁ with
  | some v => exact (alookup_of_mem k v l₂ hn₂ (hp.subset (alookup_mem k v l₁ h))).symm
  | none =>
    cases h₂ : alookup k l₂ with
    | none => rfl
    | some v =>
      exact absurd (hp.symm.subset (alookup_mem k v l₂ h₂))
        (fun hm => (alookup_eq_none k l₁).mp h ((List.mem_map_of_mem Prod.fst hm)))

/-- Reload of a saved cache is the sorted original. -/
theorem loadChecksums_saveChecksums (m : List (String × ChecksumInfo)) :
    loadChecksums (saveChecksums m) = sortByKey m := by
  unfold loadChecksums saveChecksums
  rw [sortByKey_map]
  congr 1
  rw [List.map_map]
  have : ((fun q : String × List (String × String) => (q.1, loadRecord q.2)) ∘
      fun p : String × ChecksumInfo => (p.1, saveRecord p.2)) = id := by
    funext p
    simp [loadRecord_saveRecord]
  rw [this, List.map_id]

/-- C7: loading the cache file produced by saving a mapping returns a
mapping equal field-for-field to the one saved — load after save is the
identity on cache contents (the saved file lists keys sorted, so the
reloaded association list is a permutation with identical lookups). -/
theorem c7_round_trip (m : List (String × ChecksumInfo))
    (h : (m.map Prod.fst).Nodup) :
    ∀ k, alookup k (loadChecksums (saveChecksums m)) = alookup k m := by
  intro k
  rw [loadChecksums_saveChecksums]
  exact (alookup_perm m (sortByKey m) (sortByKey_perm m).symm h k).symm

/-- Witness for C7 on a concrete one-record cache. -/
theorem c7_round_trip_witness :
    (prevSample.map Prod.fst).Nodup
    ∧ alookup "k1" (loadChecksums (saveChecksums prevSample)) = alookup "k1" prevSample :=
  ⟨by decide, c7_round_trip prevSample (by decide) "k1"⟩

/-- Every key of the orchestrator's result is a key of the current
manifest. -/
theorem update_mem_keys (net dl : String → Option String) (nowStr : String) (nowT : Nat)
    (force : Bool) (existing : List (String × ChecksumInfo)) :
    ∀ (images : List (String × ImageInfo)) (k : String) (c : ChecksumInfo),
      alookup k (update_checksums net dl nowStr nowT force existing images).1 = some c →
        k ∈ images.map Prod.fst := by
  intro images
  induction images with
  | nil => intro k c h; cases h
  | cons p rest ih =>
    obtain ⟨key, info⟩ := p
    intro k c h
    by_cases hk : k = key
    · subst hk
      exact List.mem_cons_self _ _
    · simp only [update_checksums] at h
      refine List.mem_cons_of_mem _ ?_
      cases hci : getChecksum net dl nowStr nowT info
          (if force then none else alookup key existing) with
      | some c' =>
        rw [hci] at h
        dsimp only at h
        rw [alookup, if_neg hk] at h
        exact ih k c h
      | none =>
        rw [hci] at h
        dsimp only at h
        cases hex : alookup key existing with
        | some e =>
          rw [hex] at h
          dsimp only at h
          rw [alookup, if_neg hk] at h
          exact ih k c h
        | none =>
          rw [hex] at h
          dsimp only at h
          exact ih k c h

/-- C3: for each image key of the current manifest, the orchestrator's
result holds the newly acquired record when acquisition succeeds,
otherwise the pre-existing record carried forward unchanged, otherwise no
entry; and the result contains no key outside the manifest. -/
theorem c3_orchestrator_merge (net dl : String → Option String) (nowStr : String) (nowT : Nat)
    (force : Bool) (existing : List (String × ChecksumInfo))
    (images : List (String × ImageInfo)) (hnd : (images.map Prod.fst).Nodup) :
    (∀ k info, (k, info) ∈ images →
      alookup k (update_checksums net dl nowStr nowT force existing images).1 =
        resolveEntry
          (getChecksum net dl nowStr nowT info (if force then none else alookup k existing))
          (alookup k existing))
    ∧ (∀ k c,
        alookup k (update_checksums net dl nowStr nowT force existing images).1 = some c →
          k ∈ images.map Prod.fst) := by
  refine ⟨?_, fun k c h => update_mem_keys net dl nowStr nowT force existing images k c h⟩
  induction images with
  | nil => intro k info h; cases h
  | cons p rest ih =>
    obtain ⟨key, info₀⟩ := p
    have hnd' : (rest.map Prod.fst).Nodup := (List.nodup_cons.mp hnd).2
    have hkeyni : key ∉ rest.map Prod.fst := (List.nodup_cons.mp hnd).1
    intro k info hmem
    rcases List.mem_cons.mp hmem with heq | hmem'
    · injection heq with h1 h2
      subst h1; subst h2
      simp only [update_checksums]
      cases hci : getChecksum net dl nowStr nowT info
          (if force then none else alookup k existing) with
      | some c =>
        dsimp only
        rw [alookup, if_pos rfl, resolveEntry]
      | none =>
        dsimp only
        cases hex : alookup k existing with
        | some e =>
          dsimp only
          rw [alookup, if_pos rfl, resolveEntry]
        | none =>
          dsimp only
          rw [resolveEntry]
          cases hlk : alookup k (update_checksums net dl nowStr nowT force existing rest).1 with
          | none => rfl
          | some c =>
            exact absurd (update_mem_keys net dl nowStr nowT force existing rest k c hlk)
              hkeyni
    · have hk : k ≠ key := by
        intro h
        subst h
        exact hkeyni (List.mem_map.mpr ⟨(k, info), hmem', rfl⟩)
      simp only [update_checksums]
      cases hci : getChecksum net dl nowStr nowT info₀
          (if force then none else alookup key existing) with
      | some c =>
        dsimp only
        rw [alookup, if_neg hk]
        exact ih hnd' k info hmem'
      | none =>
        dsimp only
        cases hex : alookup key existing with
        | some e =>
          dsimp only
          rw [alookup, if_neg hk]
          exact ih hnd' k info hmem'
        | none =>
          dsimp only
          exact ih hnd' k info hmem'

/-- Witness for C3: one manifest image, empty prior cache, remote
acquisition succeeding through the sample oracle. -/
theorem c3_orchestrator_merge_witness :
    (imagesSample.map Prod.fst).Nodup
    ∧ alookup "k1"
        (update_checksums netSample dlNone "2024-01-10 00:00:00" nowSample false []
          imagesSample).1 =
      resolveEntry
        (getChecksum netSample dlNone "2024-01-10 00:00:00" nowSample imageStatic none) none :=
  ⟨by decide,
    (c3_orchestrator_merge netSample dlNone "2024-01-10 00:00:00" nowSample false []
      imagesSample (by decide)).1 "k1" imageStatic (by decide)⟩

/-- The orchestrator only consults the prior cache through lookups at the
manifest keys. -/
theorem update_congr (net dl : String → Option String) (nowStr : String) (nowT : Nat)
    (force : Bool) :
    ∀ (images : List (String × ImageInfo)) (e₁ e₂ : List (String × ChecksumInfo)),
      (∀ p ∈ images, alookup p.1 e₁ = alookup p.1 e₂) →
      update_checksums net dl nowStr nowT force e₁ images =
        update_checksums net dl nowStr nowT force e₂ images := by
  intro images
  induction images with
  | nil => intro e₁ e₂ _; rfl
  | cons p rest ih =>
    intro e₁ e₂ h
    obtain ⟨key, info⟩ := p
    have hhead : alookup key e₁ = alookup key e₂ := h (key, info) (List.mem_cons_self _ _)
    have htail := ih e₁ e₂ (fun q hq => h q (List.mem_cons_of_mem _ hq))
    simp only [update_checksums, hhead, htail]

/-- Second-run stability: when every image key resolves in the prior cache
to a record the staleness policy accepts, the orchestrator reproduces the
cache verbatim with `changed = false`. -/
theorem update_skip_all (net dl : String → Option String) (nowStr : String) (nowT : Nat) :
    ∀ (images : List (String × ImageInfo)) (prev : List (String × ChecksumInfo)),
      (images.map Prod.fst).Nodup →
      prev.map Prod.fst = images.map Prod.fst →
      (∀ z ∈ prev.zip images, skipDecision nowT z.2.2 (some z.1.2) = true) →
      update_checksums net dl nowStr nowT false prev images = (prev, false) := by
  intro images
  induction images with
  | nil =>
    intro prev _ h2 _
    cases prev with
    | nil => rfl
    | cons q t => cases h2
  | cons p rest ih =>
    intro prev hnd h2 h3
    obtain ⟨key, info⟩ := p
    cases prev with
    | nil => cases h2
    | cons q prev' =>
      obtain ⟨key', r⟩ := q
      simp only [List.map_cons, List.cons.injEq] at h2
      obtain ⟨h2a, h2b⟩ := h2
      subst h2a
      have hskip : skipDecision nowT info (some r) = true := by
        refine h3 ((key', r), (key', info)) ?_
        rw [List.zip_cons_cons]
        exact List.mem_cons_self _ _
      have h3' : ∀ z ∈ prev'.zip rest, skipDecision nowT z.2.2 (some z.1.2) = true := by
        intro z hz
        refine h3 z ?_
        rw [List.zip_cons_cons]
        exact List.mem_cons_of_mem _ hz
      have hkeyni : key' ∉ rest.map Prod.fst := (List.nodup_cons.mp hnd).1
      have hcongr : update_checksums net dl nowStr nowT false ((key', r) :: prev') rest =
          update_checksums net dl nowStr nowT false prev' rest := by
        apply update_congr
        intro q hq
        have hkq : q.1 ≠ key' := by
          intro hh
          exact hkeyni (hh ▸ List.mem_map.mpr ⟨q, hq, rfl⟩)
        rw [alookup, if_neg hkq]
      have htail := ih prev' (List.nodup_cons.mp hnd).2 h2b h3'
      have hex : alookup key' ((key', r) :: prev') = some r := by
        rw [alookup, if_pos rfl]
      have hskip' : shouldSkipUpdate nowT info r = true := hskip
      have hget : getChecksum net dl nowStr nowT info (some r) = some r := by
        rw [getChecksum]
        simp only [skipDecision, hskip', if_true]
      have hch : checksumChanged (some r) r = false := by
        simp [checksumChanged]
      simp only [update_checksums, hex, if_false, hcongr, htail]
      simp [hget, hch]

/-- C4: running the orchestrator a second time with `force = false`, when
the previous run's cache resolves every manifest key to a record the
staleness policy still accepts (same manifest, unchanged URLs, second run
within the staleness threshold), yields `changed = false` and exactly the
previous cache, so the persisted file content is identical; and the
per-record `changed` test fires exactly when the acquired record's digest
or source URL differs from the stored one (or none was stored). -/
theorem c4_second_run_unchanged (net dl : String → Option String) (nowStr : String)
    (nowT : Nat) (prev : List (String × ChecksumInfo)) (images : List (String × ImageInfo))
    (h1 : (images.map Prod.fst).Nodup)
    (h2 : prev.map Prod.fst = images.map Prod.fst)
    (h3 : ∀ z ∈ prev.zip images, skipDecision nowT z.2.2 (some z.1.2) = true) :
    update_checksums net dl nowStr nowT false prev images = (prev, false)
    ∧ saveChecksums (update_checksums net dl nowStr nowT false prev images).1 =
        saveChecksums prev
    ∧ (∀ (ex : Option ChecksumInfo) (c : ChecksumInfo),
        checksumChanged ex c = false ↔
          ∃ e, ex = some e ∧ e.checksum = c.checksum ∧ e.source_url = c.source_url) := by
  have hmain := update_skip_all net dl nowStr nowT images prev h1 h2 h3
  refine ⟨hmain, by rw [hmain], ?_⟩
  intro ex c
  cases ex with
  | none => simp [checksumChanged]
  | some e =>
    simp [checksumChanged]

/-- Witness for C4: a one-image manifest whose cached record is three days
old with an unchanged non-volatile URL; the second run changes nothing. -/
theorem c4_second_run_unchanged_witness :
    (imagesSample.map Prod.fst).Nodup
    ∧ prevSample.map Prod.fst = imagesSample.map Prod.fst
    ∧ (∀ z ∈ prevSample.zip imagesSample, skipDecision nowSample z.2.2 (some z.1.2) = true)
    ∧ update_checksums netSample dlNone "2024-01-10 00:00:00" nowSample false prevSample
        imagesSample = (prevSample, false) :=
  ⟨by decide, by decide, by decide,
    (c4_second_run_unchanged netSample dlNone "2024-01-10 00:00:00" nowSample prevSample
      imagesSample (by decide) (by decide) (by decide)).1⟩

end Homelab
